import Mathlib

/-!
Verification of the Echo-System telemetry preprocessing and risk-fusion core.

The definitions below are a shallow embedding of the Python source:
  - src/fusion/fusion.py                  (fusion scorer)
  - src/api/app/services/predict.py      (service wrapper, shape adaptation)
  - src/api/preprocessing/preprocess.py  (windower, aggregator, normalizer)
  - src/test_fusion_demo.py              (risk-level helper)
Numeric values are modelled as rationals; the logistic map and the external
model handles are parameters of the embedding, since the source treats the
three predictors as opaque numeric functions.
-/

namespace Echo

/-! ## Fusion scorer: src/fusion/fusion.py -/

/-- Fusion weight for the sequence (LSTM) probability, `W_LSTM = 0.6`. -/
def W_LSTM : ℚ := 6 / 10

/-- Fusion weight for the tabular (random-forest) probability, `W_RF = 0.3`. -/
def W_RF : ℚ := 3 / 10

/-- Fusion weight for the scaled autoencoder anomaly score, `W_AE = 0.1`. -/
def W_AE : ℚ := 1 / 10

/-- `health_score = 1.0 - p_rf` as computed in `predict_fusion`. -/
def health_score (p_rf : ℚ) : ℚ := 1 - p_rf

/-- The fused risk exactly as the source writes it:
`fused = W_LSTM * p_lstm + W_RF * (1 - health_score) + W_AE * ae_scaled`. -/
def fused_risk (p_lstm p_rf ae_scaled : ℚ) : ℚ :=
  W_LSTM * p_lstm + W_RF * (1 - health_score p_rf) + W_AE * ae_scaled

/-- A value in a response dictionary: numeric or textual. -/
inductive RVal
  | num (q : ℚ)
  | txt (s : String)
deriving DecidableEq

/-- A response dictionary, as an association list preserving insertion order. -/
abbrev Response := List (String × RVal)

/-- The keys of a response dictionary. -/
def keys (r : Response) : List String := r.map Prod.fst

/-- External predictor handles of `fusion.py`.  A handle is `none` when the
corresponding `load_model`/`joblib.load` failed, in which case the module-level
global stays `None` (see `load_all`).  A loaded predictor is an opaque numeric
function, matching the spec, which excludes the models themselves. -/
structure Models where
  lstm : Option (List (List ℚ) → ℚ)
  ae : Option (List (List ℚ) → List (List ℚ))
  rf : Option (List ℚ → ℚ)

/-- The message of the Python `AttributeError` raised when `model.predict` is
called on a handle that is `None`. -/
def noneAttrMsg : String := "NoneType object has no attribute predict"

/-- `lstm_predict_prob`: calls `model.predict` on the sequence handle.  When
the handle failed to load it is `None` and the call raises. -/
def lstm_predict_prob (m : Models) (window : List (List ℚ)) : Except String ℚ :=
  match m.lstm with
  | none => .error noneAttrMsg
  | some f => .ok (f window)

/-- Mean squared error between a window and its reconstruction, averaged over
all timesteps and channels: `np.mean((w - recon)**2, axis=(1,2))`. -/
def mseQ (w recon : List (List ℚ)) : ℚ :=
  let cells := ((w.zip recon).map (fun p => ((p.1.zip p.2).map (fun c => (c.1 - c.2) ^ 2)).sum)).sum
  cells / ((w.length : ℚ) * (((w.headD []).length : ℚ)))

/-- `ae_anomaly_score`: reconstruction MSE under the autoencoder handle; raises
like `lstm_predict_prob` when the handle is `None`. -/
def ae_anomaly_score (m : Models) (window : List (List ℚ)) : Except String ℚ :=
  match m.ae with
  | none => .error noneAttrMsg
  | some f => .ok (mseQ window (f window))

/-- Sensor channel names, in the fixed order used throughout the source. -/
def sensor_names : List String := ["temperature", "vibration", "rpm", "humidity"]

/-- Statistic names, in the fixed order used throughout the source. -/
def stat_names : List String := ["mean", "std", "min", "max", "median"]

/-- The 20 feature names assembled in `rf_prob_failure`: sensor-major order,
`{sensor}_{stat}` for each sensor then each statistic. -/
def feature_names : List String :=
  (sensor_names.map (fun sensor => stat_names.map (fun stat => sensor ++ "_" ++ stat))).flatten

/-- `agg_row.get(feat_name, 0.0)`: dictionary lookup with default `0.0`. -/
def aggGet (row : List (String × ℚ)) (name : String) : ℚ :=
  (row.lookup name).getD 0

/-- The feature vector `rf_prob_failure` builds from the aggregate row. -/
def feature_vector (row : List (String × ℚ)) : List ℚ :=
  feature_names.map (fun n => aggGet row n)

/-- `rf_prob_failure`: returns the neutral `0.5` when the random-forest handle
is `None`, otherwise the classifier probability on the assembled vector. -/
def rf_prob_failure (m : Models) (agg_row : List (String × ℚ)) : ℚ :=
  match m.rf with
  | none => 1 / 2
  | some predict => predict (feature_vector agg_row)

/-- The logistic rescaling of the anomaly score,
`ae_scaled = 1 / (1 + exp(-(ae_score - 0.01) * 100))`, parametrized by the
exponential function `e` (the source uses floating-point `np.exp`). -/
def ae_scaled_of (e : ℚ → ℚ) (ae_score : ℚ) : ℚ :=
  1 / (1 + e (-(ae_score - 1 / 100) * 100))

/-- `predict_fusion`: obtains the three model outputs in source order, rescales
the anomaly score, and returns the six-field response dictionary.  Exceptions
from the sequence or autoencoder handles propagate to the caller. -/
def predict_fusion (e : ℚ → ℚ) (m : Models) (window : List (List ℚ))
    (agg_row : List (String × ℚ)) : Except String Response :=
  match lstm_predict_prob m window with
  | .error msg => .error msg
  | .ok p_lstm =>
    match ae_anomaly_score m window with
    | .error msg => .error msg
    | .ok ae_score =>
      let p_rf := rf_prob_failure m agg_row
      let aeSc := ae_scaled_of e ae_score
      .ok [("failure_prob_lstm", .num p_lstm),
           ("prob_failure_rf", .num p_rf),
           ("ae_score", .num ae_score),
           ("ae_scaled", .num aeSc),
           ("health_score", .num (health_score p_rf)),
           ("fused_risk", .num (fused_risk p_lstm p_rf aeSc))]

/-- The six keys of the dictionary returned by `predict_fusion`. -/
def fusion_resp_keys : List String :=
  ["failure_prob_lstm", "prob_failure_rf", "ae_score", "ae_scaled", "health_score", "fused_risk"]

/-! ## Risk level: the helper in src/test_fusion_demo.py -/

/-- The three discrete risk buckets. -/
inductive RiskLevel
  | LOW
  | MEDIUM
  | HIGH
deriving DecidableEq

/-- The `risk_level` helper of the demo script: LOW below 0.3, MEDIUM below
0.6, HIGH otherwise. -/
def risk_level (risk_score : ℚ) : RiskLevel :=
  if risk_score < 3 / 10 then .LOW
  else if risk_score < 6 / 10 then .MEDIUM
  else .HIGH

/-! Concrete model registries used in counterexamples and witnesses. -/

/-- All three predictors loaded, with constant outputs. -/
def constModels : Models :=
  { lstm := some (fun _ => 1 / 2), ae := some (fun w => w), rf := some (fun _ => 1 / 2) }

/-- The sequence predictor failed to load; the other two are available. -/
def lstmMissing : Models :=
  { lstm := none, ae := some (fun w => w), rf := some (fun _ => 1 / 2) }

/-- The tabular predictor failed to load; the other two are available. -/
def rfMissing : Models :=
  { lstm := some (fun _ => 1 / 2), ae := some (fun w => w), rf := none }

/-- The autoencoder failed to load; the other two are available. -/
def aeMissing : Models :=
  { lstm := some (fun _ => 1 / 2), ae := none, rf := some (fun _ => 1 / 2) }

/-- A fixed 1-row window used as a concrete input. -/
def w0 : List (List ℚ) := [[0, 0, 0, 0]]

/-! ## Windower/Labeler: `extract_windows` in src/api/preprocessing/preprocess.py -/

/-- One resampled bin: per-channel value, `none` standing for NaN (missing). -/
abbrev Bin := List (Option ℚ)

/-- The slice `arr[start : start + T]`. -/
def window_slice (arr : List Bin) (start T : Nat) : List Bin :=
  (arr.drop start).take T

/-- `np.count_nonzero(~np.isnan(window))`: the number of non-missing cells. -/
def countValid (w : List Bin) : Nat :=
  (w.map (fun row => row.countP (fun c => c.isSome))).sum

/-- `valid_ratio = count / (window_size * n_features)` as a rational. -/
def valid_fraction (w : List Bin) (T F : Nat) : ℚ :=
  (countValid w : ℚ) / ((T : ℚ) * (F : ℚ))

/-- `labels[start : start + T].max()`; labels live in {0,1,2} so the 0 seed of
the fold never changes the maximum of a nonempty slice. -/
def window_label (labels : List Nat) (start T : Nat) : Nat :=
  ((labels.drop start).take T).foldl max 0

/-- `extract_windows`: slide a length-`T` window with stride 1 over the series
(`for start in range(0, n - window_size + 1)`), keep a candidate exactly when
its validity ratio reaches `minValid`, labelling it with the maximum bin label
in range.  `F` is the feature count (`window.shape[1]`, 4 in the pipeline). -/
def extract_windows (arr : List Bin) (labels : List Nat) (T F : Nat)
    (minValid : ℚ) : List (List Bin × Nat) :=
  if arr.length < T then []
  else
    (List.range (arr.length - T + 1)).filterMap (fun start =>
      if minValid ≤ valid_fraction (window_slice arr start T) T F then
        some (window_slice arr start T, window_label labels start T)
      else none)

/-! ## Aggregator: `aggregate_features` in src/api/preprocessing/preprocess.py -/

/-- `WINDOW_SIZE` from the preprocessing config. -/
def WINDOW_SIZE : Nat := 60

/-- `min_periods = int(WINDOW_SIZE * 0.5)`. -/
def MIN_PERIODS : Nat := 30

/-- The trailing window of at most `T` entries ending at index `i`
(pandas rolling window at row `i`: rows `max(0, i - T + 1) .. i`). -/
def rollingWindow (col : List (Option ℚ)) (T i : Nat) : List (Option ℚ) :=
  (col.take (i + 1)).drop (i + 1 - T)

/-- One cell of a pandas rolling statistic: the statistic of the non-missing
values in the trailing window, or missing when fewer than `mp` values are
populated (`min_periods`). -/
def rollingStat (f : List ℚ → ℚ) (T mp : Nat) (col : List (Option ℚ)) (i : Nat) :
    Option ℚ :=
  if mp ≤ ((rollingWindow col T i).filterMap id).length then
    some (f ((rollingWindow col T i).filterMap id))
  else none

/-- The five statistic functions applied by `df.rolling(...)`: they are
parameters of the embedding because `std` (a square root) is irrational over
ℚ; the aggregator itself only supplies the rolling/min-periods machinery and
the column layout, which is what is modelled concretely. -/
structure StatFns where
  mean : List ℚ → ℚ
  std : List ℚ → ℚ
  min : List ℚ → ℚ
  max : List ℚ → ℚ
  median : List ℚ → ℚ

/-- The statistic suffixes paired with their functions, in the order of the
`pd.concat` call: mean, std, min, max, median. -/
def stat_pairs (S : StatFns) : List (String × (List ℚ → ℚ)) :=
  [("mean", S.mean), ("std", S.std), ("min", S.min), ("max", S.max), ("median", S.median)]

/-- One device series after resampling: per-bin channel values (channel order
of `AGG_FEATURES`), per-bin labels, and the constant identity columns. -/
structure DeviceSeries where
  bins : List Bin
  labels : List Nat
  device_id : String
  device_type : String

/-- Column `k` of the per-bin channel values. -/
def channelCol (bins : List Bin) (k : Nat) : List (Option ℚ) :=
  bins.map (fun row => row.getD k none)

/-- The aggregate table: named statistic columns (column-oriented, mirroring
the `pd.concat` of suffixed frames) plus identity and label columns. -/
structure AggTable where
  colNames : List String
  cols : List (List (Option ℚ))
  device_id : String
  device_type : String
  labels : List Nat

/-- `aggregate_features`: rolling window of `WINDOW_SIZE` with
`min_periods = 30` per channel and statistic, concatenated stat-major
(all `_mean` columns, then `_std`, ...), with `device_id`, `device_type`
and the raw per-bin labels attached. -/
def aggregate_features (S : StatFns) (ds : DeviceSeries) : AggTable :=
  { colNames :=
      ((stat_pairs S).map (fun p => sensor_names.map (fun c => c ++ "_" ++ p.1))).flatten
  , cols :=
      ((stat_pairs S).map (fun p => (List.range 4).map (fun k =>
        (List.range ds.bins.length).map (fun i =>
          rollingStat p.2 WINDOW_SIZE MIN_PERIODS (channelCol ds.bins k) i)))).flatten
  , device_id := ds.device_id
  , device_type := ds.device_type
  , labels := ds.labels }

/-! ## Normalizer: SimpleImputer / RobustScaler use in preprocess.py `main` -/

/-- Insert into a sorted list, keeping it sorted (ascending). -/
def insertSorted (x : ℚ) : List ℚ → List ℚ
  | [] => [x]
  | y :: ys => if x ≤ y then x :: y :: ys else y :: insertSorted x ys

/-- Sort a list of rationals ascending. -/
def sortQ (l : List ℚ) : List ℚ := l.foldr insertSorted []

/-- The median as numpy and sklearn compute it: middle element for odd length,
mean of the two middle elements for even length (0 for an empty list, a case
the pipeline never exercises). -/
def medianQ (l : List ℚ) : ℚ :=
  let s := sortQ l
  let n := s.length
  if n = 0 then 0
  else if n % 2 = 1 then s.getD (n / 2) 0
  else (s.getD (n / 2 - 1) 0 + s.getD (n / 2) 0) / 2

/-- The numpy linear-interpolation quantile on the sorted values. -/
def quantileQ (l : List ℚ) (q : ℚ) : ℚ :=
  let s := sortQ l
  let n := s.length
  if n = 0 then 0
  else
    let pos : ℚ := q * ((n : ℚ) - 1)
    let i : Nat := pos.floor.toNat
    let lower := s.getD i 0
    lower + (pos - (i : ℚ)) * (s.getD (i + 1) lower - lower)

/-- The interquartile range used by RobustScaler, with sklearn zero-spread
handling (`_handle_zeros_in_scale` replaces a zero scale by 1). -/
def iqrScale (l : List ℚ) : ℚ :=
  let s := quantileQ l (3 / 4) - quantileQ l (1 / 4)
  if s = 0 then 1 else s

/-- The frozen state of `SimpleImputer(strategy = median)`: one per-column
imputation statistic; its length is sklearn `n_features_in_`. -/
structure SimpleImputerState where
  statistics : List ℚ

/-- The frozen state of `RobustScaler`: per-column center and scale. -/
structure RobustScalerState where
  centers : List ℚ
  scales : List ℚ

/-- Column `k` of a table of optional values. -/
def tableCol (X : List (List (Option ℚ))) (k : Nat) : List (Option ℚ) :=
  X.map (fun row => row.getD k none)

/-- Fit the imputer on a table of `ncols` columns: per-column median of the
observed (non-missing) values. -/
def fit_imputer (X : List (List (Option ℚ))) (ncols : Nat) : SimpleImputerState :=
  { statistics := (List.range ncols).map (fun k => medianQ ((tableCol X k).filterMap id)) }

/-- Fit the scaler on a fully-imputed table of `ncols` columns: per-column
median center and interquartile-range scale. -/
def fit_scaler (X : List (List ℚ)) (ncols : Nat) : RobustScalerState :=
  { centers := (List.range ncols).map (fun k => medianQ (X.map (fun row => row.getD k 0)))
  , scales := (List.range ncols).map (fun k => iqrScale (X.map (fun row => row.getD k 0))) }

/-- The sklearn feature-count validation message raised by `transform` when the
payload column count differs from `n_features_in_` of the fitted state. -/
def featureCountMsg : String := "X has a different number of features than during fitting"

/-- `SimpleImputer.transform`: sklearn validates the column count against the
fitted state (`_validate_data` with `reset=False` enforces `n_features_in_`)
and then replaces each missing cell by the per-column statistic. -/
def imputer_transform (st : SimpleImputerState) (X : List (List (Option ℚ))) :
    Except String (List (List ℚ)) :=
  if X.all (fun row => row.length = st.statistics.length) then
    .ok (X.map (fun row => (row.zip st.statistics).map (fun p => p.1.getD p.2)))
  else .error featureCountMsg

/-- `RobustScaler.transform`: the same column-count validation, then
`(x - center) / scale` per column. -/
def scaler_transform (st : RobustScalerState) (X : List (List ℚ)) :
    Except String (List (List ℚ)) :=
  if X.all (fun row => row.length = st.centers.length) then
    .ok (X.map (fun row =>
      ((row.zip st.centers).zip st.scales).map (fun p => (p.1.1 - p.1.2) / p.2)))
  else .error featureCountMsg

/-- Split a flat row list back into `n` windows of `T` rows each
(`reshape(nsamples, wlen, nfeat)` on the row axis). -/
def chunksOf (T n : Nat) (l : List (List ℚ)) : List (List (List ℚ)) :=
  (List.range n).map (fun i => (l.drop (i * T)).take T)

/-- The window-normalisation path of `main`: reshape the stacked windows to
rows of `F` channel values, impute, scale, reshape back to `T × F`. -/
def transform_windows (imp : SimpleImputerState) (sc : RobustScalerState)
    (T : Nat) (windows : List (List Bin)) : Except String (List (List (List ℚ))) :=
  match imputer_transform imp windows.flatten with
  | .error msg => .error msg
  | .ok rowsImp =>
    match scaler_transform sc rowsImp with
    | .error msg => .error msg
    | .ok rowsSc => .ok (chunksOf T windows.length rowsSc)

/-- Whether `s` is a prefix of `c`, on character lists. -/
def charStarts : List Char → List Char → Bool
  | [], _ => true
  | _ :: _, [] => false
  | a :: s, b :: c => a = b && charStarts s c

/-- Whether `s` occurs as a contiguous substring of `c`, on character lists. -/
def charSub (s : List Char) : List Char → Bool
  | [] => s.isEmpty
  | b :: c => charStarts s (b :: c) || charSub s c

/-- The Python substring test `s in c`. -/
def hasSubstr (c s : String) : Bool := charSub s.data c.data

/-- `numcols = [c for c in agg_df.columns if any(s in c for s in AGG_FEATURES)]`:
every column whose name has a channel name as substring. -/
def numcols_of (names : List String) : List String :=
  names.filter (fun c => sensor_names.any (fun s => hasSubstr c s))

/-- The rows of the selected numeric columns of an aggregate table (the frame
`agg_df[numcols]`, row-oriented). -/
def agg_numcols_rows (A : AggTable) : List (List (Option ℚ)) :=
  (List.range A.labels.length).map (fun i => A.cols.map (fun col => col.getD i none))

/-- The aggregate-table normalisation path of `main`:
`agg_df[numcols] = imputer.transform(agg_df[numcols])` then the scaler. -/
def transform_agg_numcols (imp : SimpleImputerState) (sc : RobustScalerState)
    (A : AggTable) : Except String (List (List ℚ)) :=
  match imputer_transform imp (agg_numcols_rows A) with
  | .error msg => .error msg
  | .ok X => scaler_transform sc X

/-! ## Service wrapper: src/api/app/services/predict.py -/

/-- `np.array(window_data, dtype=np.float32)`: a ragged list of rows cannot
form a 2-D float array and raises. -/
def toArray2 (w : List (List ℚ)) : Except String (List (List ℚ)) :=
  match w.head? with
  | none => .ok []
  | some r =>
      if w.all (fun row => row.length = r.length) then .ok w
      else .error "setting an array element with a sequence"

/-- `np.vstack([padding, window_array])` where the padding rows have width 4:
it fails unless the supplied rows are nonempty and also of width 4 (an empty
array is 1-D for numpy and does not stack against width-4 rows either). -/
def vstack_pad (pad : List (List ℚ)) (w : List (List ℚ)) :
    Except String (List (List ℚ)) :=
  if w ≠ [] ∧ w.all (fun row => row.length = 4) then .ok (pad ++ w)
  else .error "all the input array dimensions must match"

/-- The shape-adaptation block of `predict_from_window_and_agg`: nothing when
the shape is exactly `(60, 4)`; otherwise left-pad with width-4 zero rows when
fewer than 60 rows, keep the last 60 rows when more than 60, and fall through
unchanged when exactly 60 rows of a different width. -/
def adapt_window (w : List (List ℚ)) : Except String (List (List ℚ)) :=
  if w.length = 60 ∧ w.all (fun row => row.length = 4) then .ok w
  else if w.length < 60 then
    vstack_pad (List.replicate (60 - w.length) (List.replicate 4 (0 : ℚ))) w
  else if 60 < w.length then .ok (w.drop (w.length - 60))
  else .ok w

/-- The body of the `try` block of the wrapper: convert, adapt, then call
`predict_fusion`. -/
def fusion_pipeline (e : ℚ → ℚ) (m : Models) (window_data : List (List ℚ))
    (agg_data : List (String × ℚ)) : Except String Response :=
  match toArray2 window_data with
  | .error msg => .error msg
  | .ok arr =>
    match adapt_window arr with
    | .error msg => .error msg
    | .ok arr2 => predict_fusion e m arr2 agg_data

/-- The fixed response returned when the fusion module failed to import. -/
def fallback_missing : Response :=
  [("error", .txt "Fusion model not available"),
   ("failure_prob_lstm", .num (1 / 2)), ("prob_failure_rf", .num (1 / 2)),
   ("ae_score", .num (1 / 2)), ("ae_scaled", .num (1 / 2)),
   ("health_score", .num (1 / 2)), ("fused_risk", .num (1 / 2))]

/-- The fixed response returned when the `try` block raised, carrying the
exception text. -/
def fallback_error (msg : String) : Response :=
  [("error", .txt msg),
   ("failure_prob_lstm", .num (1 / 2)), ("prob_failure_rf", .num (1 / 2)),
   ("ae_score", .num 1), ("ae_scaled", .num (1 / 2)),
   ("health_score", .num (1 / 2)), ("fused_risk", .num (1 / 2))]

/-- `predict_from_window_and_agg`: returns the import fallback when the fusion
module is unavailable, otherwise runs the pipeline and converts any exception
into the error fallback.  It is a total function: it never raises. -/
def predict_from_window_and_agg (imported : Bool) (e : ℚ → ℚ) (m : Models)
    (window_data : List (List ℚ)) (agg_data : List (String × ℚ)) : Response :=
  if imported = false then fallback_missing
  else
    match fusion_pipeline e m window_data agg_data with
    | .ok r => r
    | .error msg => fallback_error msg

/-! ## Concrete instances used in closed statements -/

/-- Whether an `Except` value is a success. -/
def isOkE {ε α : Type _} : Except ε α → Bool
  | .ok _ => true
  | .error _ => false

/-- The statistic functions of `stat_pairs`, without their names. -/
def stat_fnlist (S : StatFns) : List (List ℚ → ℚ) :=
  (stat_pairs S).map Prod.snd

/-- A concrete, fully rational instantiation of the five statistics (only the
rolling machinery around them is at stake in the theorems below). -/
def statSimple : StatFns :=
  { mean := fun l => l.sum / (l.length : ℚ)
  , std := fun _ => 0
  , min := fun l => (sortQ l).getD 0 0
  , max := fun l => (sortQ l).getD (l.length - 1) 0
  , median := medianQ }

/-- A two-bin device series with fully observed channel values. -/
def dsEx : DeviceSeries :=
  { bins := [[some 1, some 2, some 3, some 4], [some 2, some 3, some 4, some 5]]
  , labels := [0, 0]
  , device_id := "dev-01"
  , device_type := "pump" }

/-- The imputer state fit on the concatenated 4-channel bins of `dsEx`,
as `main` does with `imputer.fit_transform(concat_df)`. -/
def impEx : SimpleImputerState := fit_imputer dsEx.bins 4

/-- The imputed 4-column table (`concat_imp`) the scaler is fit on. -/
def impRowsEx : List (List ℚ) :=
  match imputer_transform impEx dsEx.bins with
  | .ok X => X
  | .error _ => []

/-- The scaler state fit on the imputed channel table, as in `main`. -/
def scEx : RobustScalerState := fit_scaler impRowsEx 4

/-- The aggregate table of `dsEx`. -/
def aggEx : AggTable := aggregate_features statSimple dsEx

/-- A fully observed 60-row, 4-channel window. -/
def winEx : List Bin := List.replicate 60 [some 1, some 2, some 3, some 4]

/-- The concrete response of `predict_fusion` on `constModels` and `w0`. -/
def respConst : Response :=
  match predict_fusion id constModels w0 [] with
  | .ok r => r
  | .error _ => []

/-- A three-bin, two-channel series used to exercise the windower. -/
def arrW : List Bin := [[some 1, some 1], [some 1, none], [none, none]]

/-- Labels for `arrW`. -/
def lblW : List Nat := [0, 2, 1]

end Echo

namespace Echo

/-! ## Shared lemmas -/

/-- Any successful `predict_fusion` response has exactly the six keys of the
source dictionary, in order. -/
theorem predict_fusion_ok_keys (e : ℚ → ℚ) (m : Models) (window : List (List ℚ))
    (agg : List (String × ℚ)) (r : Response)
    (h : predict_fusion e m window agg = .ok r) : keys r = fusion_resp_keys := by
  unfold predict_fusion lstm_predict_prob ae_anomaly_score at h
  cases hl : m.lstm with
  | none => rw [hl] at h; exact absurd h (by simp)
  | some f =>
    rw [hl] at h
    cases ha : m.ae with
    | none => rw [ha] at h; exact absurd h (by simp)
    | some g =>
      rw [ha] at h
      simp only [Except.ok.injEq] at h
      subst h
      rfl

/-- Any successful `fusion_pipeline` response has exactly the six keys. -/
theorem fusion_pipeline_ok_keys (e : ℚ → ℚ) (m : Models) (wd : List (List ℚ))
    (ad : List (String × ℚ)) (r : Response)
    (h : fusion_pipeline e m wd ad = .ok r) : keys r = fusion_resp_keys := by
  unfold fusion_pipeline at h
  cases h1 : toArray2 wd with
  | error msg => rw [h1] at h; exact absurd h (by simp)
  | ok arr =>
    rw [h1] at h
    dsimp only at h
    cases h2 : adapt_window arr with
    | error msg => rw [h2] at h; exact absurd h (by simp)
    | ok arr2 =>
      rw [h2] at h
      exact predict_fusion_ok_keys e m arr2 ad r h

/-! ## Claims -/

/-- Claim C1: the fusion scorer combines the three model outputs as
`fused_risk = 0.6 * sequence_prob + 0.3 * tabular_prob + 0.1 * ae_scaled`
(the source writes the middle term as `W_RF * (1 - health_score)` with
`health_score = 1 - p_rf`); the weights sum to 1, the input (1, 0, 0) fuses
to 0.6 and the all-zero input fuses to 0. -/
theorem C1_fusion_weights :
    (∀ p q a : ℚ, fused_risk p q a = 6 / 10 * p + 3 / 10 * q + 1 / 10 * a) ∧
    W_LSTM + W_RF + W_AE = 1 ∧
    fused_risk 1 0 0 = 6 / 10 ∧
    fused_risk 0 0 0 = 0 := by
  have hf : ∀ p q a : ℚ, fused_risk p q a = 6 / 10 * p + 3 / 10 * q + 1 / 10 * a := by
    intro p q a
    unfold fused_risk health_score W_LSTM W_RF W_AE
    ring
  refine ⟨hf, by norm_num [W_LSTM, W_RF, W_AE], by rw [hf]; norm_num, by rw [hf]; norm_num⟩

/-- Claim C2 counterexample: the response of `predict_fusion` carries no
`risk_level` field at all; its keys are exactly the six numeric fields. -/
theorem C2_cex_no_risk_level_key :
    predict_fusion id constModels w0 [] = .ok respConst ∧
    keys respConst = fusion_resp_keys ∧
    "risk_level" ∉ keys respConst := by
  refine ⟨by rfl, by rfl, by decide⟩

/-- Claim C2 (amended): the scorer itself returns only the six numeric fields;
the discrete risk level is produced by a separate helper (the demo script)
from `fused_risk`, with LOW below 0.3, MEDIUM from 0.3 up to but excluding
0.6, HIGH from 0.6, so 0.29 maps to LOW, 0.30 and 0.59 to MEDIUM and 0.60
to HIGH. -/
theorem C2_risk_level_thresholds :
    (∀ x : ℚ, (risk_level x = .LOW ↔ x < 3 / 10) ∧
      (risk_level x = .MEDIUM ↔ 3 / 10 ≤ x ∧ x < 6 / 10) ∧
      (risk_level x = .HIGH ↔ 6 / 10 ≤ x)) ∧
    risk_level (29 / 100) = .LOW ∧
    risk_level (3 / 10) = .MEDIUM ∧
    risk_level (59 / 100) = .MEDIUM ∧
    risk_level (6 / 10) = .HIGH ∧
    (∀ e m window agg r, predict_fusion e m window agg = .ok r →
      keys r = fusion_resp_keys ∧ "risk_level" ∉ keys r) := by
  have hc : ∀ x : ℚ, (risk_level x = .LOW ↔ x < 3 / 10) ∧
      (risk_level x = .MEDIUM ↔ 3 / 10 ≤ x ∧ x < 6 / 10) ∧
      (risk_level x = .HIGH ↔ 6 / 10 ≤ x) := by
    intro x
    unfold risk_level
    split_ifs with h1 h2
    · refine ⟨⟨fun _ => h1, fun _ => rfl⟩, ?_, ?_⟩
      · exact ⟨fun hh => absurd hh (by decide), fun hh => absurd h1 (not_lt.mpr hh.1)⟩
      · exact ⟨fun hh => absurd hh (by decide),
          fun hh => absurd h1 (not_lt.mpr (le_trans (by norm_num) hh))⟩
    · refine ⟨?_, ⟨fun _ => ⟨not_lt.mp h1, h2⟩, fun _ => rfl⟩, ?_⟩
      · exact ⟨fun hh => absurd hh (by decide), fun hh => absurd hh h1⟩
      · exact ⟨fun hh => absurd hh (by decide), fun hh => absurd h2 (not_lt.mpr hh)⟩
    · refine ⟨?_, ?_, ⟨fun _ => not_lt.mp h2, fun _ => rfl⟩⟩
      · exact ⟨fun hh => absurd hh (by decide), fun hh => absurd hh h1⟩
      · exact ⟨fun hh => absurd hh (by decide), fun hh => absurd hh.2 h2⟩
  refine ⟨hc, ((hc _).1).mpr (by norm_num), ((hc _).2.1).mpr (by norm_num),
    ((hc _).2.1).mpr (by norm_num), ((hc _).2.2).mpr (by norm_num),
    fun e m window agg r h => ?_⟩
  have hk := predict_fusion_ok_keys e m window agg r h
  exact ⟨hk, by rw [hk]; decide⟩

/-- Claim C2 witness: the threshold characterization applied at 0.45, and the
key shape of a concrete successful response. -/
theorem C2_risk_level_thresholds_witness :
    risk_level (45 / 100) = .MEDIUM ∧ "risk_level" ∉ keys respConst := by
  constructor
  · exact ((C2_risk_level_thresholds.1 (45 / 100)).2.1).mpr (by norm_num)
  · exact (C2_risk_level_thresholds.2.2.2.2.2 id constModels w0 [] respConst (by rfl)).2

/-- Claim C3 counterexample: a 90-row window whose rows have width 3 (feature
count different from 4) is nevertheless adapted — truncated to its last 60
rows — rather than rejected with a ShapeError. -/
theorem C3_cex_wrong_width_still_adapted :
    adapt_window (List.replicate 90 ([1, 2, 3] : List ℚ)) =
      .ok (List.replicate 60 ([1, 2, 3] : List ℚ)) := by rfl

/-- Claim C3 (amended): the adaptation acts only on the row count and never
checks the feature count.  A width-4 window with fewer than 60 rows is
left-padded with width-4 zero rows, the original rows following in order; a
window with fewer than 60 rows whose rows are not width 4 (or which is empty)
makes the zero-padding stack fail with a numpy dimension error, caught by the
wrapper; a window with more than 60 rows keeps exactly its last 60 rows
whatever its width; a 60-row window passes through unchanged whatever its
width.  No dedicated ShapeError exists. -/
theorem C3_adapt_rows_only (w : List (List ℚ)) :
    (w.length < 60 → w ≠ [] → w.all (fun row => row.length = 4) = true →
      adapt_window w =
        .ok (List.replicate (60 - w.length) (List.replicate 4 (0 : ℚ)) ++ w)) ∧
    (w.length < 60 → ¬(w ≠ [] ∧ w.all (fun row => row.length = 4) = true) →
      adapt_window w = .error "all the input array dimensions must match") ∧
    (60 < w.length → adapt_window w = .ok (w.drop (w.length - 60)) ∧
      (w.drop (w.length - 60)).length = 60) ∧
    (w.length = 60 → adapt_window w = .ok w) := by
  refine ⟨?_, ?_, ?_, ?_⟩
  · intro hlt hne hall
    have hc1 : ¬(w.length = 60 ∧ w.all (fun row => row.length = 4) = true) := by
      intro hc
      exact absurd hc.1 (by omega)
    unfold adapt_window vstack_pad
    rw [if_neg hc1, if_pos hlt, if_pos ⟨hne, hall⟩]
  · intro hlt hbad
    have hc1 : ¬(w.length = 60 ∧ w.all (fun row => row.length = 4) = true) := by
      intro hc
      exact absurd hc.1 (by omega)
    unfold adapt_window vstack_pad
    rw [if_neg hc1, if_pos hlt, if_neg hbad]
  · intro hgt
    have hc1 : ¬(w.length = 60 ∧ w.all (fun row => row.length = 4) = true) := by
      intro hc
      exact absurd hc.1 (by omega)
    refine ⟨?_, by rw [List.length_drop]; omega⟩
    unfold adapt_window
    rw [if_neg hc1, if_neg (by omega), if_pos hgt]
  · intro h60
    unfold adapt_window
    by_cases hall : w.all (fun row => row.length = 4) = true
    · rw [if_pos ⟨h60, hall⟩]
    · rw [if_neg (fun hc => hall hc.2), if_neg (by omega), if_neg (by omega)]

/-- Claim C3 witness: a width-4 window of 40 rows gains 20 zero rows in front;
a width-4 window of 90 rows keeps its last 60 rows; a width-2 window of 10
rows fails to stack with the width-4 zero padding. -/
theorem C3_adapt_rows_only_witness :
    adapt_window (List.replicate 40 ([1, 2, 3, 4] : List ℚ)) =
      .ok (List.replicate 20 (List.replicate 4 (0 : ℚ)) ++
        List.replicate 40 ([1, 2, 3, 4] : List ℚ)) ∧
    adapt_window (List.replicate 90 ([5, 6, 7, 8] : List ℚ)) =
      .ok (List.replicate 60 ([5, 6, 7, 8] : List ℚ)) ∧
    adapt_window (List.replicate 10 ([1, 2] : List ℚ)) =
      .error "all the input array dimensions must match" := by
  refine ⟨?_, ?_, ?_⟩
  · have h := (C3_adapt_rows_only (List.replicate 40 ([1, 2, 3, 4] : List ℚ))).1
      (by decide) (by decide) (by decide)
    simpa using h
  · have h := (C3_adapt_rows_only (List.replicate 90 ([5, 6, 7, 8] : List ℚ))).2.2.1
      (by decide)
    rw [h.1]
    rfl
  · exact (C3_adapt_rows_only (List.replicate 10 ([1, 2] : List ℚ))).2.1
      (by decide) (by decide)

/-- Claim C4 counterexample: with the sequence predictor unavailable (its
handle is None), `predict_fusion` raises the AttributeError to the caller
instead of substituting a neutral default. -/
theorem C4_cex_lstm_unavailable_raises :
    predict_fusion id lstmMissing w0 [] = .error noneAttrMsg := by rfl

/-- Claim C4 (amended): only the tabular predictor has a neutral-default
fallback: `rf_prob_failure` returns 0.5 when its handle is None.  If the
sequence or autoencoder handle is None, `predict_fusion` raises to its caller
(only the service wrapper converts that into a defaulted, error-annotated
response), and a successful fusion response carries no degradation flag. -/
theorem C4_rf_fallback_only :
    (∀ m agg_row, m.rf = none → rf_prob_failure m agg_row = 1 / 2) ∧
    (∀ e m window agg_row, m.lstm = none →
      predict_fusion e m window agg_row = .error noneAttrMsg) ∧
    (∀ e m window agg_row f, m.lstm = some f → m.ae = none →
      predict_fusion e m window agg_row = .error noneAttrMsg) ∧
    (∀ e m window agg_row r, predict_fusion e m window agg_row = .ok r →
      "error" ∉ keys r) := by
  refine ⟨fun m agg h => ?_, fun e m window agg h => ?_,
    fun e m window agg f hl ha => ?_, fun e m window agg r h => ?_⟩
  · unfold rf_prob_failure
    rw [h]
  · unfold predict_fusion lstm_predict_prob
    rw [h]
  · unfold predict_fusion lstm_predict_prob ae_anomaly_score
    rw [hl, ha]
  · have hk := predict_fusion_ok_keys e m window agg r h
    rw [hk]
    decide

/-- Claim C4 witness: the fallback and the raises, each at a concrete model
registry, plus the absence of a degradation flag in a concrete response. -/
theorem C4_rf_fallback_only_witness :
    rf_prob_failure rfMissing [] = 1 / 2 ∧
    predict_fusion id lstmMissing w0 [] = .error noneAttrMsg ∧
    predict_fusion id aeMissing w0 [] = .error noneAttrMsg ∧
    "error" ∉ keys respConst :=
  ⟨C4_rf_fallback_only.1 rfMissing [] rfl,
   C4_rf_fallback_only.2.1 id lstmMissing w0 [] rfl,
   C4_rf_fallback_only.2.2.1 id aeMissing w0 [] (fun _ => 1 / 2) rfl rfl,
   C4_rf_fallback_only.2.2.2 id constModels w0 [] respConst rfl⟩

/-- If every success of `f` is a success of `g` with the same value, then
`filterMap g` contains every member of `filterMap f` and is at least as long. -/
theorem filterMap_stronger_sub {α β : Type _} (f g : α → Option β) (l : List α)
    (h : ∀ a b, f a = some b → g a = some b) :
    (∀ b, b ∈ l.filterMap f → b ∈ l.filterMap g) ∧
    (l.filterMap f).length ≤ (l.filterMap g).length := by
  induction l with
  | nil => simp
  | cons a l ih =>
    rcases ih with ⟨ihm, ihl⟩
    cases hfa : f a with
    | none =>
      rw [List.filterMap_cons, hfa]
      cases hga : g a with
      | none =>
        rw [List.filterMap_cons, hga]
        exact ⟨ihm, ihl⟩
      | some c =>
        rw [List.filterMap_cons, hga]
        exact ⟨fun b hb => List.mem_cons_of_mem _ (ihm b hb), Nat.le_succ_of_le ihl⟩
    | some b =>
      have hgb := h a b hfa
      rw [List.filterMap_cons, hfa, List.filterMap_cons, hgb]
      constructor
      · intro b' hb'
        rcases List.mem_cons.mp hb' with h1 | h1
        · exact h1 ▸ List.mem_cons_self _ _
        · exact List.mem_cons_of_mem _ (ihm b' h1)
      · simpa using ihl

/-- Claim C5: the windower keeps, among the candidate windows at start offsets
`0 ≤ start ≤ n - T`, exactly those whose validity fraction reaches the
threshold, labelling each kept window with the maximum bin label in its range;
a series shorter than `T` yields no windows. -/
theorem C5_windower (arr : List Bin) (labels : List Nat) (T F : Nat) (q : ℚ) :
    (arr.length < T → extract_windows arr labels T F q = []) ∧
    (∀ w lab, (w, lab) ∈ extract_windows arr labels T F q ↔
      ∃ start, start + T ≤ arr.length ∧ w = window_slice arr start T ∧
        lab = window_label labels start T ∧
        q ≤ valid_fraction (window_slice arr start T) T F) := by
  constructor
  · intro h
    rw [extract_windows, if_pos h]
  · intro w lab
    by_cases h : arr.length < T
    · rw [extract_windows, if_pos h]
      simp only [List.not_mem_nil, false_iff, not_exists]
      intro start hc
      omega
    · rw [extract_windows, if_neg h]
      simp only [List.mem_filterMap, List.mem_range]
      constructor
      · rintro ⟨start, hst, hsome⟩
        by_cases hq : q ≤ valid_fraction (window_slice arr start T) T F
        · rw [if_pos hq] at hsome
          injection hsome with hpair
          injection hpair with hw hlab
          exact ⟨start, by omega, hw.symm, hlab.symm, hq⟩
        · rw [if_neg hq] at hsome
          exact absurd hsome (by simp)
      · rintro ⟨start, hst, hw, hlab, hq⟩
        refine ⟨start, by omega, ?_⟩
        rw [if_pos hq, hw, hlab]

/-- Claim C5 witness: on a concrete three-bin, two-channel series with
threshold 3/4 and `T = 2`, the offset-0 candidate (validity 3/4, label 2) is
kept, and with `T = 5 > n = 3` nothing is produced. -/
theorem C5_windower_witness :
    (window_slice arrW 0 2, 2) ∈ extract_windows arrW lblW 2 2 (3 / 4) ∧
    extract_windows arrW lblW 5 2 (3 / 4) = [] := by
  constructor
  · refine ((C5_windower arrW lblW 2 2 (3 / 4)).2 _ 2).mpr ⟨0, by decide, rfl, by decide, ?_⟩
    show (3 : ℚ) / 4 ≤ valid_fraction (window_slice arrW 0 2) 2 2
    have hcount : countValid (window_slice arrW 0 2) = 3 := by decide
    unfold valid_fraction
    rw [hcount]
    norm_num
  · exact (C5_windower arrW lblW 5 2 (3 / 4)).1 (by decide)

/-- Claim C6: the windower filter is monotone in the threshold — with
`r1 ≤ r2`, every window kept at threshold `r2` is kept at `r1`, and the kept
count at `r2` never exceeds the kept count at `r1`. -/
theorem C6_threshold_antitone (arr : List Bin) (labels : List Nat) (T F : Nat)
    (r1 r2 : ℚ) (h : r1 ≤ r2) :
    (∀ wl, wl ∈ extract_windows arr labels T F r2 →
      wl ∈ extract_windows arr labels T F r1) ∧
    (extract_windows arr labels T F r2).length ≤
      (extract_windows arr labels T F r1).length := by
  by_cases hn : arr.length < T
  · rw [extract_windows, if_pos hn, extract_windows, if_pos hn]
    simp
  · rw [extract_windows, if_neg hn, extract_windows, if_neg hn]
    refine filterMap_stronger_sub _ _ _ ?_
    intro start b hb
    by_cases hc : r2 ≤ valid_fraction (window_slice arr start T) T F
    · rw [if_pos hc] at hb
      rw [if_pos (le_trans h hc)]
      exact hb
    · rw [if_neg hc] at hb
      exact absurd hb (by simp)

/-- Claim C6 witness: lowering the threshold from 4/5 to 1/2 on the concrete
series does not decrease the kept-window count. -/
theorem C6_threshold_antitone_witness :
    (extract_windows arrW lblW 2 2 (4 / 5)).length ≤
      (extract_windows arrW lblW 2 2 (1 / 2)).length :=
  (C6_threshold_antitone arrW lblW 2 2 (1 / 2) (4 / 5) (by norm_num)).2

/-- Claim C7: the aggregator emits the 20 columns named channel-by-statistic
(in the stat-major order of the `pd.concat`), one value per input bin in every
column, each value being the rolling statistic of the trailing 60-bin window
with the value missing exactly when fewer than 30 of those bins are populated;
the raw per-bin labels and the constant identity columns are attached. -/
theorem C7_aggregator (S : StatFns) (ds : DeviceSeries) :
    (aggregate_features S ds).colNames =
      ["temperature_mean", "vibration_mean", "rpm_mean", "humidity_mean",
       "temperature_std", "vibration_std", "rpm_std", "humidity_std",
       "temperature_min", "vibration_min", "rpm_min", "humidity_min",
       "temperature_max", "vibration_max", "rpm_max", "humidity_max",
       "temperature_median", "vibration_median", "rpm_median", "humidity_median"] ∧
    (aggregate_features S ds).cols.length = 20 ∧
    (∀ s k, s < 5 → k < 4 →
      (aggregate_features S ds).colNames.getD (s * 4 + k) "" =
        sensor_names.getD k "" ++ "_" ++ stat_names.getD s "" ∧
      (aggregate_features S ds).cols.getD (s * 4 + k) [] =
        (List.range ds.bins.length).map (fun i =>
          rollingStat ((stat_fnlist S).getD s (fun _ => 0)) WINDOW_SIZE MIN_PERIODS
            (channelCol ds.bins k) i) ∧
      ((aggregate_features S ds).cols.getD (s * 4 + k) []).length = ds.bins.length) ∧
    (∀ f T mp col i, rollingStat f T mp col i = none ↔
      ((rollingWindow col T i).filterMap id).length < mp) ∧
    (aggregate_features S ds).labels = ds.labels ∧
    (aggregate_features S ds).device_id = ds.device_id ∧
    (aggregate_features S ds).device_type = ds.device_type := by
  refine ⟨by rfl, by rfl, ?_, ?_, rfl, rfl, rfl⟩
  · intro s k hs hk
    interval_cases s <;> interval_cases k <;>
      exact ⟨rfl, rfl, by
        show ((List.range ds.bins.length).map _).length = ds.bins.length
        simp⟩
  · intro f T mp col i
    unfold rollingStat
    by_cases hmp : mp ≤ ((rollingWindow col T i).filterMap id).length
    · rw [if_pos hmp]
      simp
      omega
    · rw [if_neg hmp]
      simp
      omega

/-- Claim C7 witness: the column shape and the missing-value gate at a
concrete two-bin series (two bins populate fewer than 30 periods, so the
rolling statistic is missing). -/
theorem C7_aggregator_witness :
    (aggregate_features statSimple dsEx).cols.length = 20 ∧
    ((aggregate_features statSimple dsEx).cols.getD 0 []).length = dsEx.bins.length ∧
    rollingStat statSimple.mean WINDOW_SIZE MIN_PERIODS (channelCol dsEx.bins 0) 0 = none := by
  refine ⟨(C7_aggregator statSimple dsEx).2.1,
    ((C7_aggregator statSimple dsEx).2.2.1 0 0 (by norm_num) (by norm_num)).2.2, ?_⟩
  exact ((C7_aggregator statSimple dsEx).2.2.2.1 statSimple.mean WINDOW_SIZE MIN_PERIODS
    (channelCol dsEx.bins 0) 0).mpr (by decide)

/-- Claim C8 (code bug): the imputer fit in `main` has 4 fitted features (the
channel columns), the aggregate table has 20 statistic columns, the `numcols`
substring filter selects all 20, and the aggregate-table transform step
therefore fails with the sklearn feature-count mismatch — while the window
path, reshaped to width-4 rows, transforms without error. -/
theorem C8_agg_transform_mismatch :
    impEx.statistics.length = 4 ∧
    aggEx.cols.length = 20 ∧
    numcols_of aggEx.colNames = aggEx.colNames ∧
    transform_agg_numcols impEx scEx aggEx = .error featureCountMsg ∧
    isOkE (transform_windows impEx scEx 60 [winEx]) = true := by
  exact ⟨rfl, rfl, rfl, rfl, rfl⟩

/-- Claim C9: the tabular feature vector is assembled over the fixed
sensor-major name order (4 sensors times 5 statistics, 20 names) with
`agg_row.get(name, 0.0)` semantics: a missing named feature contributes 0.0
at its position, and a loaded tabular predictor is applied to exactly this
vector. -/
theorem C9_feature_order_and_default :
    feature_names =
      ["temperature_mean", "temperature_std", "temperature_min", "temperature_max",
       "temperature_median", "vibration_mean", "vibration_std", "vibration_min",
       "vibration_max", "vibration_median", "rpm_mean", "rpm_std", "rpm_min",
       "rpm_max", "rpm_median", "humidity_mean", "humidity_std", "humidity_min",
       "humidity_max", "humidity_median"] ∧
    feature_names.length = 20 ∧
    (∀ row, feature_vector row = feature_names.map (fun n => (row.lookup n).getD 0)) ∧
    feature_vector [] = List.replicate 20 (0 : ℚ) ∧
    (∀ m row f, m.rf = some f → rf_prob_failure m row = f (feature_vector row)) := by
  refine ⟨by rfl, by rfl, fun row => rfl, by rfl, fun m row f h => ?_⟩
  unfold rf_prob_failure
  rw [h]

/-- Claim C9 witness: with every named feature absent, a constant loaded
predictor receives the all-zero default vector. -/
theorem C9_feature_order_and_default_witness :
    rf_prob_failure constModels [] = 1 / 2 := by
  have h := C9_feature_order_and_default.2.2.2.2 constModels [] (fun _ => 1 / 2) rfl
  simpa using h

/-- Claim C10: the service wrapper is total — its response always contains the
six numeric keys; when the fusion module failed to import it returns the
fixed fallback for a missing module, when the pipeline raises internally it
returns the error fallback carrying the message, and both fallbacks hold 0.5
in every probability field together with the `error` annotation. -/
theorem C10_wrapper_never_raises (imported : Bool) (e : ℚ → ℚ) (m : Models)
    (wd : List (List ℚ)) (ad : List (String × ℚ)) :
    (∀ k, k ∈ fusion_resp_keys →
      k ∈ keys (predict_from_window_and_agg imported e m wd ad)) ∧
    (imported = false →
      predict_from_window_and_agg imported e m wd ad = fallback_missing) ∧
    (∀ msg, fusion_pipeline e m wd ad = .error msg →
      predict_from_window_and_agg true e m wd ad = fallback_error msg) ∧
    (∀ r, fusion_pipeline e m wd ad = .ok r →
      predict_from_window_and_agg true e m wd ad = r) ∧
    (∀ msg, (fallback_error msg).lookup "error" = some (.txt msg) ∧
      (fallback_error msg).lookup "failure_prob_lstm" = some (.num (1 / 2)) ∧
      (fallback_error msg).lookup "prob_failure_rf" = some (.num (1 / 2)) ∧
      (fallback_error msg).lookup "ae_scaled" = some (.num (1 / 2)) ∧
      (fallback_error msg).lookup "health_score" = some (.num (1 / 2)) ∧
      (fallback_error msg).lookup "fused_risk" = some (.num (1 / 2))) ∧
    (fallback_missing.lookup "error" = some (.txt "Fusion model not available") ∧
      fallback_missing.lookup "failure_prob_lstm" = some (.num (1 / 2)) ∧
      fallback_missing.lookup "prob_failure_rf" = some (.num (1 / 2)) ∧
      fallback_missing.lookup "ae_score" = some (.num (1 / 2)) ∧
      fallback_missing.lookup "ae_scaled" = some (.num (1 / 2)) ∧
      fallback_missing.lookup "health_score" = some (.num (1 / 2)) ∧
      fallback_missing.lookup "fused_risk" = some (.num (1 / 2))) := by
  refine ⟨?_, ?_, ?_, ?_, fun msg => ⟨rfl, rfl, rfl, rfl, rfl, rfl⟩,
    ⟨rfl, rfl, rfl, rfl, rfl, rfl, rfl⟩⟩
  · intro k hk
    cases imported with
    | false => exact (by decide : ∀ x ∈ fusion_resp_keys, x ∈ keys fallback_missing) k hk
    | true =>
      unfold predict_from_window_and_agg
      rw [if_neg (by simp)]
      cases hp : fusion_pipeline e m wd ad with
      | ok r =>
        have hkeys := fusion_pipeline_ok_keys e m wd ad r hp
        dsimp only
        rw [hkeys]
        exact hk
      | error msg =>
        dsimp only
        exact (by decide : ∀ x ∈ fusion_resp_keys, x ∈ keys (fallback_error "")) k hk
  · intro h
    subst h
    rfl
  · intro msg h
    unfold predict_from_window_and_agg
    rw [if_neg (by simp), h]
  · intro r h
    unfold predict_from_window_and_agg
    rw [if_neg (by simp), h]

/-- Claim C10 witness: the import fallback, a pipeline failure on a ragged
malformed window converted into the error fallback, and the presence of the
numeric keys in a successful response. -/
theorem C10_wrapper_never_raises_witness :
    predict_from_window_and_agg false id constModels [[1]] [] = fallback_missing ∧
    predict_from_window_and_agg true id constModels [[1], [1, 2]] [] =
      fallback_error "setting an array element with a sequence" ∧
    "failure_prob_lstm" ∈ keys (predict_from_window_and_agg true id constModels w0 []) := by
  refine ⟨(C10_wrapper_never_raises false id constModels [[1]] []).2.1 rfl,
    (C10_wrapper_never_raises true id constModels [[1], [1, 2]] []).2.2.1 _ (by rfl),
    (C10_wrapper_never_raises true id constModels w0 []).1 "failure_prob_lstm" (by decide)⟩

end Echo




